/-
Verification of the session reconstruction and importance-scoring engine of
the Graph_MCP repository, shallowly embedded in Lean 4.

Python sources embedded here:
  - src/intelligence/agents/session_analysis_agent.py
      (SessionProcessor, SessionAnalysisAgent)
  - src/src/models/sessions.py (Session, SessionEvent, enums)
  - src/intelligence/intelligent_session_analyzer.py (SessionAgent fallback)

Modelling conventions: timestamps are seconds encoded as rationals, Python
floats are rationals (the scoring arithmetic is small additive arithmetic),
dictionaries are association lists, and external library calls
(datetime.fromisoformat, float parsing, the OpenAI completion call) are
parameters or Option-valued inputs.
-/
import Mathlib

namespace GraphMCP

/-- Event categories, from the EventCategory enum in src/src/models/sessions.py. -/
inductive EventCategory where
  | ecommerce
  | engagement
  | conversion
  | navigation
  | account
  | vetCare
  | product
deriving DecidableEq, Repr

/-- Session importance tiers, from the SessionImportance enum in
src/src/models/sessions.py. -/
inductive SessionImportance where
  | critical
  | significant
  | moderate
  | low
deriving DecidableEq, Repr

/-- One clickstream event: the SessionEvent dataclass of
src/src/models/sessions.py, with timestamps as rational seconds and the
optional revenue as a rational. -/
structure SessionEvent where
  event_id : String
  event_name : String
  event_timestamp : ℚ
  event_category : Option EventCategory := none
  page_type : Option String := none
  product_sku : Option String := none
  revenue : Option ℚ := none
  properties : Option (List (String × String)) := none
deriving DecidableEq, Repr

/-- Python substring membership `pat in s`: some suffix of `s` starts with `pat`. -/
def strContainsSub (s pat : String) : Bool :=
  s.data.tails.any (fun t => pat.data.isPrefixOf t)

/-- Python str.lower over the character list (the event names are ASCII;
character-wise lowering matches str.lower there). -/
def pyLower (s : String) : String :=
  { data := s.data.map Char.toLower }

/-- Python str.startswith: the pattern is a prefix of the string. -/
def pyStartsWith (s pre : String) : Bool :=
  pre.data.isPrefixOf s.data

/-- Keyword list SessionProcessor.vet_keywords
(src/intelligence/agents/session_analysis_agent.py). -/
def vet_keywords : List String :=
  ["vet", "veterinary", "appointment", "health", "medical",
   "prescription", "medication", "treatment", "exam", "checkup"]

/-- Keyword list SessionProcessor.product_keywords. -/
def product_keywords : List String :=
  ["product", "item", "add to cart", "purchase", "buy",
   "cart", "checkout", "order", "review", "rating"]

/-- Keyword list SessionProcessor.engagement_keywords. -/
def engagement_keywords : List String :=
  ["search", "filter", "compare", "video", "content",
   "article", "guide", "tutorial", "review"]

/-- Inline ecommerce keyword list of SessionProcessor._categorize_event. -/
def ecommerce_keywords : List String :=
  ["purchase", "order", "cart", "checkout", "payment"]

/-- Inline account keyword list of SessionProcessor._categorize_event. -/
def account_keywords : List String :=
  ["login", "register", "account", "profile"]

/-- Inline conversion keyword list of SessionProcessor._categorize_event. -/
def conversion_keywords : List String :=
  ["conversion", "goal", "complete", "submit"]

/-- Python `any(keyword in event_name.lower() for keyword in kws)`. -/
def matchesAny (event_name : String) (kws : List String) : Bool :=
  kws.any (fun k => strContainsSub (pyLower event_name) k)

/-- SessionProcessor._categorize_event: first-match-wins keyword
classification of an event name.  The Python function always returns a
category (its Optional return type is never None), so the model is total. -/
def categorizeEvent (event_name : String) : EventCategory :=
  if matchesAny event_name ecommerce_keywords then EventCategory.ecommerce
  else if matchesAny event_name vet_keywords then EventCategory.vetCare
  else if matchesAny event_name product_keywords then EventCategory.product
  else if matchesAny event_name account_keywords then EventCategory.account
  else if matchesAny event_name conversion_keywords then EventCategory.conversion
  else if matchesAny event_name engagement_keywords then EventCategory.engagement
  else EventCategory.navigation

/-- The fixed per-event-name weight table
SessionProcessor.event_importance_weights. -/
def event_importance_weights : List (String × ℚ) :=
  [("Order Completed", 50), ("Purchase", 50), ("Payment Processed", 50),
   ("Vet Appointment Booked", 45), ("Prescription Ordered", 40),
   ("Autoship Created", 35),
   ("Product Added", 25), ("Checkout Started", 25), ("Cart Updated", 20),
   ("Account Created", 30), ("Profile Updated", 20), ("Review Submitted", 15),
   ("Product Viewed", 5), ("Search Performed", 8), ("Category Browsed", 3),
   ("Video Watched", 10), ("Content Engaged", 7),
   ("Page Viewed", 1), ("Button Clicked", 2), ("Link Clicked", 2),
   ("Scroll Reached", 1)]

/-- Weight contributed by an exact event name: the table entry when the name
is a key of the weight dictionary, 0 otherwise. -/
def eventNameWeight (name : String) : ℚ :=
  (event_importance_weights.lookup name).getD 0

/-- Category bonus of SessionAnalysisAgent._determine_importance: +15 for
ecommerce, +20 for vet_care, +5 for product, 0 otherwise (also when the
category is unset). -/
def categoryBonus : Option EventCategory → ℚ
  | some EventCategory.ecommerce => 15
  | some EventCategory.vetCare => 20
  | some EventCategory.product => 5
  | _ => 0

/-- Revenue bonus of _determine_importance.  The Python guard
`event.revenue and event.revenue > 0` (float truthiness is nonzeroness)
reduces to positivity of a present revenue. -/
def revenueBonus : Option ℚ → ℚ
  | some r => if 0 < r then min r 50 else 0
  | none => 0

/-- The per-event accumulation loop of _determine_importance: name weight,
category bonus and revenue bonus added into the running total. -/
def scoreLoop (events : List SessionEvent) : ℚ :=
  events.foldl
    (fun acc e =>
      acc + eventNameWeight e.event_name + categoryBonus e.event_category
        + revenueBonus e.revenue) 0

/-- Engagement (volume) bonus of _determine_importance: +15 above 20 events,
+8 above 10 events. -/
def volumeBonus (n : ℕ) : ℚ :=
  if 20 < n then 15 else if 10 < n then 8 else 0

/-- Session duration bonus of _determine_importance, computed only when the
session has more than one event, from the first-to-last timestamp span in
minutes: +10 above 30 minutes, +5 above 10 minutes. -/
def durationBonus : List SessionEvent → ℚ
  | [] => 0
  | [_] => 0
  | e :: e2 :: es =>
    let d := (((e2 :: es).getLast (by simp)).event_timestamp - e.event_timestamp) / 60
    if 30 < d then 10 else if 10 < d then 5 else 0

/-- The total numeric score accumulated by _determine_importance. -/
def totalScore (events : List SessionEvent) : ℚ :=
  scoreLoop events + volumeBonus events.length + durationBonus events

/-- The threshold classification step of _determine_importance, with the
fixed SessionAnalysisAgent.importance_thresholds (critical 40,
significant 20, moderate 8, low 0). -/
def tierOfScore (score : ℚ) : SessionImportance :=
  if 40 ≤ score then SessionImportance.critical
  else if 20 ≤ score then SessionImportance.significant
  else if 8 ≤ score then SessionImportance.moderate
  else SessionImportance.low

/-- SessionAnalysisAgent._determine_importance: total score then threshold
classification. -/
def determineImportance (events : List SessionEvent) : SessionImportance :=
  tierOfScore (totalScore events)

/-- The importance score as the spec describes it: a sum over events of
name weight plus category bonus plus capped positive revenue, plus the
volume bonus, plus the duration bonus. -/
def specSessionScore (events : List SessionEvent) : ℚ :=
  (events.map
    (fun e =>
      eventNameWeight e.event_name + categoryBonus e.event_category
        + revenueBonus e.revenue)).sum
    + volumeBonus events.length + durationBonus events

/-- Ordinal rank of an importance tier in the order
low < moderate < significant < critical. -/
def importanceRank : SessionImportance → ℕ
  | SessionImportance.low => 0
  | SessionImportance.moderate => 1
  | SessionImportance.significant => 2
  | SessionImportance.critical => 3

/-- Sorting a list of events by timestamp, the `sorted(events, key=...)`
calls of session_analysis_agent.py (stable, like Python sort). -/
def sortEvents (events : List SessionEvent) : List SessionEvent :=
  List.insertionSort (fun a b => a.event_timestamp ≤ b.event_timestamp) events

/-- The loop body state of SessionProcessor.group_events_by_session:
`anchor` is current_session_start, `cur` the events of the current session,
`acc` the finished sessions (the defaultdict keyed by fresh counter-based
ids, modelled as a list of groups since every key is distinct).  A new
session starts when the gap from the current session start exceeds 1800
seconds. -/
def groupEventsLoop (anchor : ℚ) (cur : List SessionEvent)
    (acc : List (List SessionEvent)) : List SessionEvent → List (List SessionEvent)
  | [] => acc ++ [cur]
  | e :: es =>
    if 1800 < e.event_timestamp - anchor then
      groupEventsLoop e.event_timestamp [e] (acc ++ [cur]) es
    else
      groupEventsLoop anchor (cur ++ [e]) acc es

/-- SessionProcessor.group_events_by_session: sort by timestamp, then the
30-minute-gap loop (the first event always opens a session because
current_session_start is initially None). -/
def groupEventsBySession (events : List SessionEvent) : List (List SessionEvent) :=
  match sortEvents events with
  | [] => []
  | e :: es => groupEventsLoop e.event_timestamp [e] [] es

/-- Recursion-friendly form of the grouping loop: given the anchor of the
current session, returns the remainder of the current session group and the
later groups. -/
def spanGroups (anchor : ℚ) : List SessionEvent → List SessionEvent × List (List SessionEvent)
  | [] => ([], [])
  | e :: es =>
    if 1800 < e.event_timestamp - anchor then
      ([], let p := spanGroups e.event_timestamp es; (e :: p.1) :: p.2)
    else
      let p := spanGroups anchor es
      (e :: p.1, p.2)

/-- A nonempty event group all of whose members lie within 1800 seconds of
the first event of the group (the session anchor). -/
def withinAnchor : List SessionEvent → Prop
  | [] => False
  | a :: rest => ∀ e ∈ rest, e.event_timestamp ≤ a.event_timestamp + 1800

/-- Consecutive session groups are separated by more than 1800 seconds
between their first events. -/
def anchorGap (g g' : List SessionEvent) : Prop :=
  ∀ a ∈ g.head?, ∀ b ∈ g'.head?, a.event_timestamp + 1800 < b.event_timestamp

/-- Convenience constructor for concrete events. -/
def mkEvent (id name : String) (ts : ℚ) : SessionEvent :=
  { event_id := id, event_name := name, event_timestamp := ts }

/-- The Session dataclass of src/src/models/sessions.py, restricted to the
fields read or written by the routines under verification (identifier,
temporal bounds, events).  The narrative, channel and flag fields are
omitted: no verified routine reads them. -/
structure Session where
  session_id : String
  session_start : ℚ
  session_end : Option ℚ := none
  events : List SessionEvent := []
deriving DecidableEq, Repr

/-- Session.add_event: append the event and advance session_end when it is
unset (Python falsiness of None) or the new timestamp is strictly later. -/
def addEvent (s : Session) (e : SessionEvent) : Session :=
  { s with
    events := s.events ++ [e],
    session_end :=
      match s.session_end with
      | none => some e.event_timestamp
      | some t => if t < e.event_timestamp then some e.event_timestamp else some t }

/-- Session.calculate_duration_minutes: 0 when session_end is unset, the
start-to-end span in minutes otherwise. -/
def calculateDurationMinutes (s : Session) : ℚ :=
  match s.session_end with
  | none => 0
  | some t => (t - s.session_start) / 60

/-- Session.calculate_confidence_score: 0.1 for an event-less session, else
capped contributions from event count and duration plus an outcome-clarity
bonus, truncated at 1. -/
def calculateConfidenceScore (s : Session) : ℚ :=
  if s.events = [] then 1/10
  else
    let event_confidence := min ((s.events.length : ℚ) / 20) (4/10)
    let duration_confidence := min (calculateDurationMinutes s / 30) (3/10)
    let base := event_confidence + duration_confidence
    let has_purchase := s.events.any (fun e => strContainsSub e.event_name "Purchase")
    let has_clear_goal := s.events.any (fun e =>
      ["Search", "Product", "Cart", "Checkout"].any (fun k => strContainsSub e.event_name k))
    let confidence :=
      if has_purchase then base + 3/10
      else if has_clear_goal then base + 2/10
      else base
    min confidence 1

/-- The outcome-clarity term of the confidence formula as the spec states
it: +0.3 for a purchase event, else +0.2 for a search/product/cart/checkout
event, else 0.  Matching is case-sensitive substring search. -/
def specOutcomeBonus (events : List SessionEvent) : ℚ :=
  if events.any (fun e => strContainsSub e.event_name "Purchase") then 3/10
  else if events.any (fun e =>
      ["Search", "Product", "Cart", "Checkout"].any (fun k => strContainsSub e.event_name k)) then 2/10
  else 0

/-- Session.generate_departure_mystery: a priority-ordered chain of
case-sensitive substring checks over the names of the last up-to-three
events, returning the first matching hypothesis text. -/
def generateDepartureMystery (s : Session) : String :=
  if s.events = [] then
    "Departed as quickly as they arrived - perhaps lost or disinterested."
  else
    let last_events := if 3 ≤ s.events.length then s.events.drop (s.events.length - 3) else s.events
    let last_event_names := last_events.map (fun e => e.event_name)
    if last_event_names.any (fun n => strContainsSub n "Purchase" || strContainsSub n "Order") then
      "Mission accomplished! Successfully completed their purchase and departed satisfied."
    else if last_event_names.any (fun n => strContainsSub n "Cart" || strContainsSub n "Checkout") then
      "Hesitation at the final frontier - left with items in cart, perhaps to return later."
    else if last_event_names.any (fun n => strContainsSub n "Product") then
      "Gathering intelligence on products - likely comparing options before making a decision."
    else if last_event_names.any (fun n => strContainsSub n "Search") then
      "Still seeking the perfect solution - departed mid-quest, possibly to continue elsewhere."
    else if last_event_names.any (fun n => strContainsSub n "Page") then
      "Casual exploration concluded - either found what they needed or lost interest."
    else
      "Mysterious departure - their digital footsteps fade without clear resolution."

/-- The closed set of departure hypotheses named by the spec. -/
inductive DepartureHypothesis where
  | purchaseCompleted
  | cartAbandoned
  | productResearch
  | stillSearching
  | casualBrowseEnded
  | unknown
deriving DecidableEq, Repr

/-- Classification of each departure-mystery output string into its
hypothesis; both no-match texts (the empty-session text and the fade-out
text) are the unknown hypothesis. -/
def hypothesisOfMystery (m : String) : DepartureHypothesis :=
  if m = "Mission accomplished! Successfully completed their purchase and departed satisfied." then
    DepartureHypothesis.purchaseCompleted
  else if m = "Hesitation at the final frontier - left with items in cart, perhaps to return later." then
    DepartureHypothesis.cartAbandoned
  else if m = "Gathering intelligence on products - likely comparing options before making a decision." then
    DepartureHypothesis.productResearch
  else if m = "Still seeking the perfect solution - departed mid-quest, possibly to continue elsewhere." then
    DepartureHypothesis.stillSearching
  else if m = "Casual exploration concluded - either found what they needed or lost interest." then
    DepartureHypothesis.casualBrowseEnded
  else DepartureHypothesis.unknown

/-- The departure classifier as the spec states it: a first-match priority
order of substring checks over the names of the last events. -/
def specDepartureClass (lastNames : List String) : DepartureHypothesis :=
  if lastNames.any (fun n => strContainsSub n "Purchase" || strContainsSub n "Order") then
    DepartureHypothesis.purchaseCompleted
  else if lastNames.any (fun n => strContainsSub n "Cart" || strContainsSub n "Checkout") then
    DepartureHypothesis.cartAbandoned
  else if lastNames.any (fun n => strContainsSub n "Product") then
    DepartureHypothesis.productResearch
  else if lastNames.any (fun n => strContainsSub n "Search") then
    DepartureHypothesis.stillSearching
  else if lastNames.any (fun n => strContainsSub n "Page") then
    DepartureHypothesis.casualBrowseEnded
  else DepartureHypothesis.unknown

/-- The session-construction core of SessionAnalysisAgent._analyze_session:
sort the events, then build the Session whose start/end are the first/last
sorted timestamps.  `none` models the exception branch the Python code
takes when indexing an empty list (caught and turned into an error
result). -/
def analyzeSessionEvents (sid : String) (events : List SessionEvent) : Option Session :=
  match sortEvents events with
  | [] => none
  | e :: es =>
    some
      { session_id := sid,
        session_start := e.event_timestamp,
        session_end := some (((e :: es).getLast (by simp)).event_timestamp),
        events := e :: es }

/-- One pass of Python str.replace over the character list: at each
position, when the (nonempty) pattern matches, emit the replacement and
skip the matched characters; fuel bounds the recursion by the input
length.  Evaluation model of the stdlib str.replace used for the
Z-suffix normalization. -/
def replaceLoop (pat rep : List Char) : ℕ → List Char → List Char
  | 0, l => l
  | _ + 1, [] => []
  | fuel + 1, c :: rest =>
    if pat.isPrefixOf (c :: rest) then
      rep ++ replaceLoop pat rep fuel ((c :: rest).drop pat.length)
    else
      c :: replaceLoop pat rep fuel rest

/-- Python str.replace(pat, rep): replaces every non-overlapping occurrence
left to right.  The call site only uses the nonempty pattern "Z", so the
empty-pattern behaviour (identity here) is never exercised. -/
def pyReplace (s pat rep : String) : String :=
  if pat.data = [] then s
  else { data := replaceLoop pat.data rep.data s.data.length s.data }

/-- The ASCII whitespace characters Python str.strip removes (unicode
whitespace beyond these is not modelled; the CSV fields are ASCII). -/
def pyWhitespace (c : Char) : Bool :=
  c == ' ' || c == '\t' || c == '\n' || c == '\r' || c == '\x0b' || c == '\x0c'

/-- The failure guard of validate_required_field (src/src/models/base.py):
a required string field fails validation exactly when value.strip() is
empty, that is when every character is whitespace (the empty string
included). -/
def stripsToEmpty (s : String) : Bool :=
  s.data.all pyWhitespace

/-- SessionProcessor.parse_csv_row.  The row is the CSV dictionary as an
association list; `fromIso` models datetime.fromisoformat (None is a raised
ValueError), `toFloat` models the float() conversion inside safe_float
(None is a conversion failure, so safe_float itself never raises).  The
required-field guard is the Python `not all([...])` truthiness test, and
the trailing none branch models the ValidationError that
SessionEvent.__post_init__ raises through validate_required_field for a
whitespace-only id or name, caught by the surrounding except into None. -/
def parseCsvRow (fromIso toFloat : String → Option ℚ)
    (row : List (String × String)) : Option SessionEvent :=
  let event_id := (row.lookup "EVENT_ID").getD ""
  let event_name := (row.lookup "EVENT_NAME").getD ""
  let event_timestamp_str := (row.lookup "EVENT_TIMESTAMP").getD ""
  if event_id = "" ∨ event_name = "" ∨ event_timestamp_str = "" then none
  else
    match fromIso (pyReplace event_timestamp_str "Z" "+00:00") with
    | none => none
    | some ts =>
      let props := row.filterMap (fun p =>
        if (pyStartsWith p.1 "PROPERTIES"
            || p.1 == "PAGE_TYPE" || p.1 == "REVENUE" || p.1 == "PRODUCT_SKU")
            && p.2 != "" then
          some (pyLower p.1, p.2)
        else none)
      if stripsToEmpty event_id || stripsToEmpty event_name then none
      else
        some
          { event_id := event_id,
            event_name := event_name,
            event_timestamp := ts,
            event_category := some (categorizeEvent event_name),
            page_type := row.lookup "PAGE_TYPE",
            product_sku := row.lookup "PAGE_PRODUCT_SKU",
            revenue := (row.lookup "REVENUE").bind toFloat,
            properties := if props = [] then none else some props }

/-- The JSON shape the external summarization collaborator returns
(intelligent_session_analyzer.py); each field is optional because the
Python code reads it with result.get and a default. -/
structure AIResponse where
  importance_score : Option ℚ := none
  confidence_score : Option ℚ := none
  session_summary : Option String := none
  session_reasoning : Option String := none
deriving DecidableEq, Repr

/-- One-decimal fixed-point rendering of a rational, the model of the
Python format specifier used in the fallback chronicles (exact rounding to
the nearest tenth; session durations are nonnegative). -/
def fmtTenths (q : ℚ) : String :=
  let n : ℤ := round (q * 10)
  if n < 0 then
    "-" ++ toString ((-n).toNat / 10) ++ "." ++ toString ((-n).toNat % 10)
  else
    toString (n.toNat / 10) ++ "." ++ toString (n.toNat % 10)

/-- SessionAgent._fallback_analysis: deterministic
(importance, confidence, summary, reasoning) keyed purely on event count. -/
def fallbackAnalysis (event_count : ℕ) (duration_minutes : ℚ) :
    ℚ × ℚ × String × String :=
  if 15 < event_count then
    (7/10, 6/10,
     "Conducted extensive exploration with " ++ toString event_count
       ++ " interactions over " ++ fmtTenths duration_minutes ++ " minutes",
     "Research-oriented behavior suggesting comparison shopping and careful consideration")
  else if 5 < event_count then
    (5/10, 5/10,
     "Moderate browsing session with " ++ toString event_count
       ++ " page views over " ++ fmtTenths duration_minutes ++ " minutes",
     "Standard exploration behavior with moderate engagement depth")
  else
    (4/10, 5/10,
     "Brief browsing session with " ++ toString event_count ++ " page views",
     "Casual exploration behavior with limited engagement depth")

/-- SessionAgent.analyze_session: `ai = none` models the external call
raising any exception or its output failing to parse as JSON (both are
caught by the surrounding try and routed to the fallback); on success the
four fields are read with their result.get defaults. -/
def analyzeSessionAI (ai : Option AIResponse) (event_count : ℕ)
    (duration_minutes : ℚ) : ℚ × ℚ × String × String :=
  match ai with
  | some r =>
    (r.importance_score.getD (5/10), r.confidence_score.getD (8/10),
     r.session_summary.getD "User engaged in browsing activities",
     r.session_reasoning.getD "Standard customer exploration behavior")
  | none => fallbackAnalysis event_count duration_minutes

/-- The by-timestamp comparison used for event sorting is total. -/
instance : IsTotal SessionEvent (fun a b : SessionEvent => a.event_timestamp ≤ b.event_timestamp) :=
  ⟨fun a b => le_total a.event_timestamp b.event_timestamp⟩

/-- The by-timestamp comparison used for event sorting is transitive. -/
instance : IsTrans SessionEvent (fun a b : SessionEvent => a.event_timestamp ≤ b.event_timestamp) :=
  ⟨fun _ _ _ h1 h2 => le_trans h1 h2⟩

/-- Concrete session fixture: three page views spanning ten minutes. -/
def sampleSession : Session :=
  { session_id := "s1", session_start := 0, session_end := some 600,
    events := [mkEvent "e1" "Page Viewed" 0, mkEvent "e2" "Page Viewed" 300,
               mkEvent "e3" "Page Viewed" 600] }

/-- Concrete session fixture: a session ending in checkout and cart
activity, the example of the departure-reason claim. -/
def cartSession : Session :=
  { session_id := "s2", session_start := 0,
    events := [mkEvent "c1" "Checkout Started" 0, mkEvent "c2" "Cart Updated" 60] }

/-- Concrete timestamp parser fixture: accepts exactly the normalized form
of the Z-suffixed timestamp of the fixture row. -/
def isoFixture : String → Option ℚ :=
  fun s => if s = "2024-01-01T00:00:00+00:00" then some 0 else none

/-- Concrete float parser fixture: parses nothing. -/
def floatFixture : String → Option ℚ := fun _ => none

/-- Concrete CSV row fixture with the three required fields. -/
def rowFixture : List (String × String) :=
  [("EVENT_ID", "e1"), ("EVENT_NAME", "Page Viewed"),
   ("EVENT_TIMESTAMP", "2024-01-01T00:00:00Z")]

/-- The event that parsing the fixture row yields. -/
def eventFixture : SessionEvent :=
  { event_id := "e1", event_name := "Page Viewed", event_timestamp := 0,
    event_category := some EventCategory.navigation }

/-- Concrete CSV row fixture whose event id is a single space: nonempty,
so it passes the not-all truthiness guard, but whitespace-only, so the
required-field validation of the constructed event rejects it. -/
def blankIdRow : List (String × String) :=
  [("EVENT_ID", " "), ("EVENT_NAME", "Page Viewed"),
   ("EVENT_TIMESTAMP", "2024-01-01T00:00:00Z")]

/-- The per-event accumulation loop of the importance scorer equals the sum
of the per-event terms. -/
theorem scoreLoop_eq_sum (events : List SessionEvent) :
    scoreLoop events =
      (events.map (fun e =>
        eventNameWeight e.event_name + categoryBonus e.event_category
          + revenueBonus e.revenue)).sum := by
  have gen : ∀ (l : List SessionEvent) (a : ℚ),
      l.foldl (fun acc e =>
        acc + eventNameWeight e.event_name + categoryBonus e.event_category
          + revenueBonus e.revenue) a
        = a + (l.map (fun e =>
            eventNameWeight e.event_name + categoryBonus e.event_category
              + revenueBonus e.revenue)).sum := by
    intro l
    induction l with
    | nil => intro a; simp
    | cons e es ih =>
      intro a
      simp only [List.foldl_cons, List.map_cons, List.sum_cons, ih]
      ring
  simpa [scoreLoop] using gen events 0

/-- Range characterization of the threshold classification step. -/
theorem tierOfScore_iff (s : ℚ) :
    (tierOfScore s = SessionImportance.critical ↔ 40 ≤ s) ∧
    (tierOfScore s = SessionImportance.significant ↔ 20 ≤ s ∧ s < 40) ∧
    (tierOfScore s = SessionImportance.moderate ↔ 8 ≤ s ∧ s < 20) ∧
    (tierOfScore s = SessionImportance.low ↔ s < 8) := by
  rcases lt_or_le s 8 with h | h
  · simp [tierOfScore, h, show ¬(8:ℚ) ≤ s by linarith, show ¬(20:ℚ) ≤ s by linarith,
      show ¬(40:ℚ) ≤ s by linarith]
  rcases lt_or_le s 20 with h2 | h2
  · simp [tierOfScore, h, h2, show ¬s < (8:ℚ) by linarith, show ¬(20:ℚ) ≤ s by linarith,
      show ¬(40:ℚ) ≤ s by linarith]
  rcases lt_or_le s 40 with h3 | h3
  · simp [tierOfScore, h2, h3, show ¬s < (8:ℚ) by linarith, show ¬s < (20:ℚ) by linarith,
      show ¬(40:ℚ) ≤ s by linarith, show (8:ℚ) ≤ s by linarith]
  · simp [tierOfScore, h3, show ¬s < (8:ℚ) by linarith, show ¬s < (20:ℚ) by linarith,
      show ¬s < (40:ℚ) by linarith, show (8:ℚ) ≤ s by linarith,
      show (20:ℚ) ≤ s by linarith]

/-- Claim C1: _determine_importance computes the total score as the sum of
per-event name weights, category bonuses (+15 ecommerce, +20 vet_care,
+5 product), capped positive-revenue bonuses, the volume bonus and the
duration bonus, and classifies it as critical at 40, significant at 20,
moderate at 8, low below. -/
theorem determine_importance_matches_spec (events : List SessionEvent) :
    totalScore events = specSessionScore events ∧
    (determineImportance events = SessionImportance.critical ↔
      40 ≤ specSessionScore events) ∧
    (determineImportance events = SessionImportance.significant ↔
      20 ≤ specSessionScore events ∧ specSessionScore events < 40) ∧
    (determineImportance events = SessionImportance.moderate ↔
      8 ≤ specSessionScore events ∧ specSessionScore events < 20) ∧
    (determineImportance events = SessionImportance.low ↔
      specSessionScore events < 8) := by
  have hts : totalScore events = specSessionScore events := by
    unfold totalScore specSessionScore
    rw [scoreLoop_eq_sum]
  have hd : determineImportance events = tierOfScore (specSessionScore events) := by
    unfold determineImportance
    rw [hts]
  rcases tierOfScore_iff (specSessionScore events) with ⟨a, b, c, d⟩
  exact ⟨hts, by rw [hd]; exact a, by rw [hd]; exact b, by rw [hd]; exact c,
    by rw [hd]; exact d⟩

/-- Claim C9: the threshold classification step is monotonically
non-decreasing in the score under low < moderate < significant < critical;
a score of exactly 40 is critical and 39 is not. -/
theorem tier_step_monotone (s1 s2 : ℚ) (h : s1 ≤ s2) :
    importanceRank (tierOfScore s1) ≤ importanceRank (tierOfScore s2) ∧
    tierOfScore 40 = SessionImportance.critical ∧
    tierOfScore 39 ≠ SessionImportance.critical := by
  refine ⟨?_, by norm_num [tierOfScore],
    by simp [tierOfScore, show ¬(40:ℚ) ≤ 39 by norm_num, show (20:ℚ) ≤ 39 by norm_num]⟩
  unfold tierOfScore
  split_ifs <;> simp [importanceRank] <;> linarith

/-- Witness for claim C9 at scores 8 and 40. -/
theorem tier_step_monotone_witness :
    importanceRank (tierOfScore 8) ≤ importanceRank (tierOfScore 40) ∧
    tierOfScore 40 = SessionImportance.critical ∧
    tierOfScore 39 ≠ SessionImportance.critical :=
  tier_step_monotone 8 40 (by norm_num)

/-- Claim C4: _categorize_event is a first-match-wins ordered check, with
case-insensitive substring matching, through ecommerce, vet-care, product,
account, conversion and engagement keyword sets, defaulting to navigation;
it is total over event names. -/
theorem categorize_event_first_match (event_name : String) :
    (categorizeEvent event_name = EventCategory.ecommerce ↔
      matchesAny event_name ecommerce_keywords = true) ∧
    (categorizeEvent event_name = EventCategory.vetCare ↔
      matchesAny event_name ecommerce_keywords = false ∧
      matchesAny event_name vet_keywords = true) ∧
    (categorizeEvent event_name = EventCategory.product ↔
      matchesAny event_name ecommerce_keywords = false ∧
      matchesAny event_name vet_keywords = false ∧
      matchesAny event_name product_keywords = true) ∧
    (categorizeEvent event_name = EventCategory.account ↔
      matchesAny event_name ecommerce_keywords = false ∧
      matchesAny event_name vet_keywords = false ∧
      matchesAny event_name product_keywords = false ∧
      matchesAny event_name account_keywords = true) ∧
    (categorizeEvent event_name = EventCategory.conversion ↔
      matchesAny event_name ecommerce_keywords = false ∧
      matchesAny event_name vet_keywords = false ∧
      matchesAny event_name product_keywords = false ∧
      matchesAny event_name account_keywords = false ∧
      matchesAny event_name conversion_keywords = true) ∧
    (categorizeEvent event_name = EventCategory.engagement ↔
      matchesAny event_name ecommerce_keywords = false ∧
      matchesAny event_name vet_keywords = false ∧
      matchesAny event_name product_keywords = false ∧
      matchesAny event_name account_keywords = false ∧
      matchesAny event_name conversion_keywords = false ∧
      matchesAny event_name engagement_keywords = true) ∧
    (categorizeEvent event_name = EventCategory.navigation ↔
      matchesAny event_name ecommerce_keywords = false ∧
      matchesAny event_name vet_keywords = false ∧
      matchesAny event_name product_keywords = false ∧
      matchesAny event_name account_keywords = false ∧
      matchesAny event_name conversion_keywords = false ∧
      matchesAny event_name engagement_keywords = false) := by
  unfold categorizeEvent
  cases h1 : matchesAny event_name ecommerce_keywords <;>
  cases h2 : matchesAny event_name vet_keywords <;>
  cases h3 : matchesAny event_name product_keywords <;>
  cases h4 : matchesAny event_name account_keywords <;>
  cases h5 : matchesAny event_name conversion_keywords <;>
  cases h6 : matchesAny event_name engagement_keywords <;>
  simp [h1, h2, h3, h4, h5, h6]

/-- Claim C10: calculate_confidence_score returns exactly 0.1 on a session
with no events, and on every other session evaluates the additive
capped-contributions formula; empty events is the only bypass. -/
theorem confidence_empty_events_bypass (s : Session) :
    calculateConfidenceScore s =
      if s.events = [] then 1/10
      else
        min (min ((s.events.length : ℚ) / 20) (4/10)
          + min (calculateDurationMinutes s / 30) (3/10)
          + specOutcomeBonus s.events) 1 := by
  by_cases h : s.events = []
  · simp [calculateConfidenceScore, h]
  · simp only [calculateConfidenceScore, specOutcomeBonus, h, if_false, if_neg]
    split_ifs <;> ring_nf

/-- Witness for claim C10: the empty-events session evaluates to 0.1 and a
nonempty one to the formula value. -/
theorem confidence_empty_events_bypass_witness :
    calculateConfidenceScore { session_id := "s0", session_start := 0 } = 1/10 := by
  have h := confidence_empty_events_bypass { session_id := "s0", session_start := 0 }
  simpa using h

/-- Claim C7: for a session with at least one event,
calculate_confidence_score is min(1, c_events + c_duration + c_outcome)
with c_events = min(n/20, 0.4), c_duration = min(minutes/30, 0.3) where the
duration is 0 without a session_end, and the outcome bonus 0.3/0.2/0; with
session_start ≤ session_end the result lies in [0, 1]. -/
theorem confidence_score_formula (s : Session) (h : s.events ≠ []) :
    calculateConfidenceScore s =
      min (min ((s.events.length : ℚ) / 20) (4/10)
        + min (calculateDurationMinutes s / 30) (3/10)
        + specOutcomeBonus s.events) 1 ∧
    (s.session_end = none → calculateDurationMinutes s = 0) ∧
    ((∀ t ∈ s.session_end, s.session_start ≤ t) →
      0 ≤ calculateConfidenceScore s ∧ calculateConfidenceScore s ≤ 1) := by
  have hmain : calculateConfidenceScore s =
      min (min ((s.events.length : ℚ) / 20) (4/10)
        + min (calculateDurationMinutes s / 30) (3/10)
        + specOutcomeBonus s.events) 1 := by
    simp only [calculateConfidenceScore, specOutcomeBonus, h, if_false, if_neg]
    split_ifs <;> ring_nf
  refine ⟨hmain, ?_, ?_⟩
  · intro hend
    simp [calculateDurationMinutes, hend]
  · intro hord
    have hdur : 0 ≤ calculateDurationMinutes s := by
      unfold calculateDurationMinutes
      cases hse : s.session_end with
      | none => exact le_refl 0
      | some t =>
        have hst := hord t (by simp [hse])
        have : (0:ℚ) ≤ t - s.session_start := by linarith
        positivity
    have ha : (0:ℚ) ≤ min ((s.events.length : ℚ) / 20) (4/10) :=
      le_min (by positivity) (by norm_num)
    have hb : (0:ℚ) ≤ min (calculateDurationMinutes s / 30) (3/10) :=
      le_min (by positivity) (by norm_num)
    have hc : (0:ℚ) ≤ specOutcomeBonus s.events := by
      unfold specOutcomeBonus
      split_ifs <;> norm_num
    rw [hmain]
    constructor
    · exact le_min (by linarith) (by norm_num)
    · exact min_le_right _ _

/-- Witness for claim C7 on the three-page-view ten-minute fixture:
3/20 event contribution plus the capped 3/10 duration contribution. -/
theorem confidence_score_formula_witness :
    calculateConfidenceScore sampleSession = 9/20 := by
  have h := (confidence_score_formula sampleSession (by decide)).1
  have hout : specOutcomeBonus sampleSession.events = 0 := by decide
  have hlen : sampleSession.events.length = 3 := by decide
  have hdur : calculateDurationMinutes sampleSession = 10 := by
    norm_num [calculateDurationMinutes, sampleSession]
  rw [h, hout, hlen, hdur]
  norm_num [min_def]

/-- Claim C3: whenever the summarization call fails (raises or returns
unparsable output), analyze_session returns the deterministic fallback
keyed purely on event count, with the exact bucket templates; it never
propagates an exception (the model is total). -/
theorem analyze_session_fallback_buckets (ai : Option AIResponse) (n : ℕ) (d : ℚ)
    (hfail : ai = none) :
    analyzeSessionAI ai n d = fallbackAnalysis n d ∧
    (15 < n → analyzeSessionAI ai n d =
      (7/10, 6/10,
       "Conducted extensive exploration with " ++ toString n
         ++ " interactions over " ++ fmtTenths d ++ " minutes",
       "Research-oriented behavior suggesting comparison shopping and careful consideration")) ∧
    (5 < n → n ≤ 15 → analyzeSessionAI ai n d =
      (5/10, 5/10,
       "Moderate browsing session with " ++ toString n
         ++ " page views over " ++ fmtTenths d ++ " minutes",
       "Standard exploration behavior with moderate engagement depth")) ∧
    (n ≤ 5 → analyzeSessionAI ai n d =
      (4/10, 5/10,
       "Brief browsing session with " ++ toString n ++ " page views",
       "Casual exploration behavior with limited engagement depth")) := by
  subst hfail
  refine ⟨rfl, ?_, ?_, ?_⟩
  · intro h15
    show fallbackAnalysis n d = _
    unfold fallbackAnalysis
    rw [if_pos h15]
  · intro h5 h15
    show fallbackAnalysis n d = _
    unfold fallbackAnalysis
    rw [if_neg (by omega), if_pos h5]
  · intro h5
    show fallbackAnalysis n d = _
    unfold fallbackAnalysis
    rw [if_neg (by omega), if_neg (by omega)]

/-- Witness for claim C3: a three-event session under a failing collaborator
yields exactly the brief-browsing template with confidence 0.5. -/
theorem analyze_session_fallback_buckets_witness :
    analyzeSessionAI none 3 0 =
      (4/10, 5/10,
       "Brief browsing session with 3 page views",
       "Casual exploration behavior with limited engagement depth") :=
  (analyze_session_fallback_buckets none 3 0 rfl).2.2.2 (by norm_num)

/-- Claim C5: generate_departure_mystery inspects only the last
min(3, n) event names and returns the first matching hypothesis in the
fixed priority order purchase-completed, cart-abandoned, product-research,
still-searching, casual-browse-ended, unknown; in particular last events
Checkout Started then Cart Updated classify as cart abandonment, not
purchase completion. -/
theorem departure_mystery_first_match (s : Session) :
    hypothesisOfMystery (generateDepartureMystery s) =
      specDepartureClass
        ((s.events.drop (s.events.length - 3)).map (fun e => e.event_name)) ∧
    generateDepartureMystery cartSession =
      "Hesitation at the final frontier - left with items in cart, perhaps to return later." ∧
    hypothesisOfMystery (generateDepartureMystery cartSession) =
      DepartureHypothesis.cartAbandoned ∧
    hypothesisOfMystery (generateDepartureMystery cartSession) ≠
      DepartureHypothesis.purchaseCompleted := by
  refine ⟨?_, by decide, by decide, by decide⟩
  by_cases hempty : s.events = []
  · have hstr : generateDepartureMystery s =
        "Departed as quickly as they arrived - perhaps lost or disinterested." := by
      simp [generateDepartureMystery, hempty]
    rw [hstr, hempty]
    decide
  · have hdrop : (if 3 ≤ s.events.length then s.events.drop (s.events.length - 3)
        else s.events) = s.events.drop (s.events.length - 3) := by
      by_cases h3 : 3 ≤ s.events.length
      · simp [h3]
      · have h0 : s.events.length - 3 = 0 := Nat.sub_eq_zero_of_le (by omega)
        simp [h3, h0]
    simp only [generateDepartureMystery, specDepartureClass, hempty, if_false, if_neg, hdrop]
    split_ifs <;> decide

/-- Claim C6 counterexample: a row whose event id is a single space.  All
three required fields are nonempty and the timestamp parses, so the
claimed iff says the row parses into an event, yet parse_csv_row returns
none: the constructed event fails the required-field validation of
SessionEvent (whitespace-only id) and the raised ValidationError is
caught by the surrounding except into None. -/
theorem parse_csv_row_blank_id_counterexample :
    parseCsvRow isoFixture floatFixture blankIdRow = none ∧
    (blankIdRow.lookup "EVENT_ID").getD "" ≠ "" ∧
    (blankIdRow.lookup "EVENT_NAME").getD "" ≠ "" ∧
    (blankIdRow.lookup "EVENT_TIMESTAMP").getD "" ≠ "" ∧
    isoFixture (pyReplace ((blankIdRow.lookup "EVENT_TIMESTAMP").getD "") "Z" "+00:00") ≠
      none := by
  decide

/-- Claim C6 (amended): parse_csv_row returns none — and never raises —
exactly when the event id or event name is missing, empty or
whitespace-only (the last through the required-field validation of the
constructed event), or the timestamp field is missing or empty, or the
timestamp string fails to parse after the trailing-Z normalization to an
explicit +00:00 offset; on success the event carries the given id, name,
parsed timestamp and inferred category. -/
theorem parse_csv_row_contract (fromIso toFloat : String → Option ℚ)
    (row : List (String × String)) :
    (parseCsvRow fromIso toFloat row = none ↔
      stripsToEmpty ((row.lookup "EVENT_ID").getD "") = true ∨
      stripsToEmpty ((row.lookup "EVENT_NAME").getD "") = true ∨
      (row.lookup "EVENT_TIMESTAMP").getD "" = "" ∨
      fromIso (pyReplace ((row.lookup "EVENT_TIMESTAMP").getD "") "Z" "+00:00") = none) ∧
    (∀ ev, parseCsvRow fromIso toFloat row = some ev →
      ev.event_id = (row.lookup "EVENT_ID").getD "" ∧
      ev.event_name = (row.lookup "EVENT_NAME").getD "" ∧
      fromIso (pyReplace ((row.lookup "EVENT_TIMESTAMP").getD "") "Z" "+00:00") =
        some ev.event_timestamp ∧
      ev.event_category = some (categorizeEvent ev.event_name)) := by
  simp only [parseCsvRow]
  by_cases hg : ((row.lookup "EVENT_ID").getD "" = "" ∨
      (row.lookup "EVENT_NAME").getD "" = "" ∨
      (row.lookup "EVENT_TIMESTAMP").getD "" = "")
  · rw [if_pos hg]
    constructor
    · refine iff_of_true rfl ?_
      rcases hg with h | h | h
      · exact Or.inl (by rw [h]; rfl)
      · exact Or.inr (Or.inl (by rw [h]; rfl))
      · exact Or.inr (Or.inr (Or.inl h))
    · intro ev hev
      exact absurd hev (by simp)
  · rw [if_neg hg]
    push_neg at hg
    obtain ⟨hg1, hg2, hg3⟩ := hg
    cases hts : fromIso (pyReplace ((row.lookup "EVENT_TIMESTAMP").getD "") "Z" "+00:00") with
    | none =>
      constructor
      · exact iff_of_true rfl (Or.inr (Or.inr (Or.inr rfl)))
      · intro ev hev
        exact absurd hev (by simp)
    | some ts =>
      by_cases hv : (stripsToEmpty ((row.lookup "EVENT_ID").getD "")
          || stripsToEmpty ((row.lookup "EVENT_NAME").getD "")) = true
      · constructor
        · refine iff_of_true (by simp [hv]) ?_
          rcases (by simpa using hv :
              stripsToEmpty ((row.lookup "EVENT_ID").getD "") = true ∨
              stripsToEmpty ((row.lookup "EVENT_NAME").getD "") = true) with h | h
          · exact Or.inl h
          · exact Or.inr (Or.inl h)
        · intro ev hev
          simp [hv] at hev
      · constructor
        · refine iff_of_false (by simp [hv]) ?_
          rintro (h | h | h | h)
          · exact hv (by simp [h])
          · exact hv (by simp [h])
          · exact hg3 h
          · exact Option.noConfusion h
        · intro ev hev
          simp [hv] at hev
          subst hev
          exact ⟨rfl, rfl, rfl, rfl⟩

/-- Witness for claim C6 on the fixture row with a Z-suffixed timestamp. -/
theorem parse_csv_row_contract_witness :
    eventFixture.event_id = (rowFixture.lookup "EVENT_ID").getD "" ∧
    eventFixture.event_name = (rowFixture.lookup "EVENT_NAME").getD "" ∧
    isoFixture (pyReplace ((rowFixture.lookup "EVENT_TIMESTAMP").getD "") "Z" "+00:00") =
      some eventFixture.event_timestamp ∧
    eventFixture.event_category = some (categorizeEvent eventFixture.event_name) :=
  (parse_csv_row_contract isoFixture floatFixture rowFixture).2 eventFixture (by decide)

/-- The accumulator form of the grouping loop equals the structural
span-based form. -/
theorem groupEventsLoop_eq_spanGroups (rest : List SessionEvent) :
    ∀ (anchor : ℚ) (cur : List SessionEvent) (acc : List (List SessionEvent)),
      groupEventsLoop anchor cur acc rest =
        acc ++ (cur ++ (spanGroups anchor rest).1) :: (spanGroups anchor rest).2 := by
  induction rest with
  | nil =>
    intro anchor cur acc
    simp [groupEventsLoop, spanGroups]
  | cons e es ih =>
    intro anchor cur acc
    by_cases hgap : 1800 < e.event_timestamp - anchor
    · simp only [groupEventsLoop, spanGroups, if_pos hgap, ih]
      simp
    · simp only [groupEventsLoop, spanGroups, if_neg hgap, ih]
      simp

/-- The span-based grouping concatenates back to its input. -/
theorem spanGroups_partition (l : List SessionEvent) :
    ∀ anchor : ℚ, (spanGroups anchor l).1 ++ ((spanGroups anchor l).2).flatten = l := by
  induction l with
  | nil => intro anchor; simp [spanGroups]
  | cons e es ih =>
    intro anchor
    by_cases hgap : 1800 < e.event_timestamp - anchor
    · simp only [spanGroups, if_pos hgap]
      simp [ih e.event_timestamp]
    · simp only [spanGroups, if_neg hgap]
      simp [ih anchor]

/-- Every event kept in the current group lies within 1800 seconds of the
current anchor. -/
theorem spanGroups_current_within (l : List SessionEvent) :
    ∀ anchor : ℚ, ∀ e ∈ (spanGroups anchor l).1,
      e.event_timestamp ≤ anchor + 1800 := by
  induction l with
  | nil => intro anchor e he; simp [spanGroups] at he
  | cons a as ih =>
    intro anchor e he
    by_cases hgap : 1800 < a.event_timestamp - anchor
    · simp [spanGroups, if_pos hgap] at he
    · simp only [spanGroups, if_neg hgap] at he
      rcases List.mem_cons.1 he with rfl | hmem
      · have := not_lt.1 hgap
        linarith
      · exact ih anchor e hmem

/-- Every later group produced by the span-based grouping is anchored at
its own first event. -/
theorem spanGroups_groups_within (l : List SessionEvent) :
    ∀ anchor : ℚ, ∀ g ∈ (spanGroups anchor l).2, withinAnchor g := by
  induction l with
  | nil => intro anchor g hg; simp [spanGroups] at hg
  | cons a as ih =>
    intro anchor g hg
    by_cases hgap : 1800 < a.event_timestamp - anchor
    · simp only [spanGroups, if_pos hgap] at hg
      rcases List.mem_cons.1 hg with rfl | hmem
      · intro e he
        have := spanGroups_current_within as a.event_timestamp e he
        linarith
      · exact ih a.event_timestamp g hmem
    · simp only [spanGroups, if_neg hgap] at hg
      exact ih anchor g hg

/-- The later groups form a chain of anchors more than 1800 seconds apart,
and the first of them starts more than 1800 seconds after the incoming
anchor. -/
theorem spanGroups_chain (l : List SessionEvent) :
    ∀ anchor : ℚ,
      List.Chain' anchorGap ((spanGroups anchor l).2) ∧
      ∀ g ∈ ((spanGroups anchor l).2).head?, ∀ b ∈ g.head?,
        anchor + 1800 < b.event_timestamp := by
  induction l with
  | nil => intro anchor; constructor <;> simp [spanGroups]
  | cons a as ih =>
    intro anchor
    by_cases hgap : 1800 < a.event_timestamp - anchor
    · have iha := ih a.event_timestamp
      constructor
      · simp only [spanGroups, if_pos hgap]
        refine List.chain'_cons'.2 ⟨?_, iha.1⟩
        intro g' hg' x hx b hb
        simp only [List.head?_cons, Option.mem_some_iff] at hx
        subst hx
        exact iha.2 g' hg' b hb
      · simp only [spanGroups, if_pos hgap, List.head?_cons, Option.mem_some_iff]
        intro g hg b hb
        subst hg
        simp only [List.head?_cons, Option.mem_some_iff] at hb
        subst hb
        linarith
    · have iha := ih anchor
      simp only [spanGroups, if_neg hgap]
      exact iha

/-- Claim C2 counterexample: three events at 0, 20 and 40 minutes.  The
consecutive sorted events at 20 and 40 minutes are only 20 minutes apart —
at most 30 minutes after the immediately preceding event — yet the grouping
routine separates them, because it measures the gap from the first
event of the session, not from the previous event. -/
theorem group_events_prev_gap_counterexample :
    groupEventsBySession
      [mkEvent "g1" "Page Viewed" 0, mkEvent "g2" "Page Viewed" 1200,
       mkEvent "g3" "Page Viewed" 2400] =
      [[mkEvent "g1" "Page Viewed" 0, mkEvent "g2" "Page Viewed" 1200],
       [mkEvent "g3" "Page Viewed" 2400]] ∧
    (mkEvent "g3" "Page Viewed" 2400).event_timestamp
      - (mkEvent "g2" "Page Viewed" 1200).event_timestamp ≤ 30 * 60 := by
  constructor
  · norm_num [groupEventsBySession, sortEvents, List.insertionSort, List.orderedInsert,
      groupEventsLoop, mkEvent]
  · norm_num [mkEvent]

/-- Claim C2 (amended): after sorting by timestamp, the grouping routine
starts a new session exactly when the event is more than 30 minutes after
the first event of the current session: the session groups concatenate to
the sorted input, every event lies within 30 minutes of the first event of
its session, first events of consecutive sessions are more than 30 minutes
apart,
and two events 45 minutes apart land in two distinct sessions. -/
theorem group_events_anchor_gap (l : List SessionEvent) :
    ((groupEventsBySession l).flatten = sortEvents l) ∧
    (∀ g ∈ groupEventsBySession l, withinAnchor g) ∧
    List.Chain' anchorGap (groupEventsBySession l) ∧
    (groupEventsBySession
        [mkEvent "f1" "Page Viewed" 0, mkEvent "f2" "Page Viewed" 2700]).length = 2 := by
  have hconc : (groupEventsBySession
      [mkEvent "f1" "Page Viewed" 0, mkEvent "f2" "Page Viewed" 2700]).length = 2 := by
    norm_num [groupEventsBySession, sortEvents, List.insertionSort, List.orderedInsert,
      groupEventsLoop, mkEvent]
  have hmain : ((groupEventsBySession l).flatten = sortEvents l) ∧
      (∀ g ∈ groupEventsBySession l, withinAnchor g) ∧
      List.Chain' anchorGap (groupEventsBySession l) := by
    cases hs : sortEvents l with
    | nil =>
      have hg : groupEventsBySession l = [] := by
        unfold groupEventsBySession
        rw [hs]
      simp [hg, hs]
    | cons e es =>
      have hg : groupEventsBySession l =
          (e :: (spanGroups e.event_timestamp es).1)
            :: (spanGroups e.event_timestamp es).2 := by
        unfold groupEventsBySession
        rw [hs]
        show groupEventsLoop e.event_timestamp [e] [] es = _
        rw [groupEventsLoop_eq_spanGroups]
        simp
      refine ⟨?_, ?_, ?_⟩
      · rw [hg]
        have hp := spanGroups_partition es e.event_timestamp
        simpa using hp
      · intro g hgm
        rw [hg] at hgm
        rcases List.mem_cons.1 hgm with rfl | hmem
        · intro x hx
          exact spanGroups_current_within es e.event_timestamp x hx
        · exact spanGroups_groups_within es e.event_timestamp g hmem
      · rw [hg]
        have hch := spanGroups_chain es e.event_timestamp
        refine List.chain'_cons'.2 ⟨?_, hch.1⟩
        intro g' hg' x hx b hb
        simp only [List.head?_cons, Option.mem_some_iff] at hx
        subst hx
        exact hch.2 g' hg' b hb
  exact ⟨hmain.1, hmain.2.1, hmain.2.2, hconc⟩

/-- Sorting events by timestamp yields a timestamp-sorted list. -/
theorem sortEvents_sorted (l : List SessionEvent) :
    List.Sorted (fun a b : SessionEvent => a.event_timestamp ≤ b.event_timestamp)
      (sortEvents l) :=
  List.sorted_insertionSort _ l

/-- Sorting events permutes the input. -/
theorem sortEvents_perm (l : List SessionEvent) : List.Perm (sortEvents l) l :=
  List.perm_insertionSort _ l

/-- In a timestamp-sorted nonempty list, every member has a timestamp at
most that of the last element. -/
theorem sorted_le_getLast :
    ∀ (l : List SessionEvent)
      (_ : List.Sorted (fun a b : SessionEvent =>
            a.event_timestamp ≤ b.event_timestamp) l)
      (h : l ≠ []) (x : SessionEvent), x ∈ l →
      x.event_timestamp ≤ (l.getLast h).event_timestamp
  | [], _, h, _, _ => absurd rfl h
  | [e], _, _, x, hx => by
    simp only [List.mem_singleton] at hx
    subst hx
    simp [List.getLast]
  | e :: e2 :: es, hs, _, x, hx => by
    have hgl : ((e :: e2 :: es).getLast (by simp)) = ((e2 :: es).getLast (by simp)) :=
      List.getLast_cons (by simp)
    rw [hgl]
    rcases List.mem_cons.1 hx with rfl | hx2
    · have hmem : (e2 :: es).getLast (by simp) ∈ e2 :: es := List.getLast_mem _
      exact List.rel_of_sorted_cons hs _ hmem
    · exact sorted_le_getLast (e2 :: es) hs.of_cons (by simp) x hx2

/-- Claim C8: the session built by _analyze_session has session_start equal
to the earliest event timestamp, session_end equal to the latest, start at
most end, and a timestamp-sorted events sequence; add_event appends the
event and advances session_end exactly when the new timestamp is strictly
later or session_end was unset, so that after folding add_event the
session_end is the running maximum of the appended timestamps. -/
theorem analyze_session_invariants (sid : String) (events : List SessionEvent)
    (h : events ≠ []) :
    (∃ s, analyzeSessionEvents sid events = some s ∧
      s.session_start ∈ events.map (fun e => e.event_timestamp) ∧
      (∀ e ∈ events, s.session_start ≤ e.event_timestamp) ∧
      (∃ tEnd, s.session_end = some tEnd ∧
        tEnd ∈ events.map (fun e => e.event_timestamp) ∧
        (∀ e ∈ events, e.event_timestamp ≤ tEnd) ∧
        s.session_start ≤ tEnd) ∧
      List.Sorted (fun a b : SessionEvent => a.event_timestamp ≤ b.event_timestamp)
        s.events) ∧
    (∀ (s : Session) (e : SessionEvent),
      (addEvent s e).events = s.events ++ [e] ∧
      (addEvent s e).session_end =
        some (match s.session_end with
          | none => e.event_timestamp
          | some t => if t < e.event_timestamp then e.event_timestamp else t)) ∧
    (∀ (l : List SessionEvent) (s : Session) (t0 : ℚ), s.session_end = some t0 →
      (l.foldl addEvent s).session_end =
        some (l.foldl (fun a e => max a e.event_timestamp) t0)) := by
  refine ⟨?_, ?_, ?_⟩
  · cases hsort : sortEvents events with
    | nil =>
      have hperm := sortEvents_perm events
      rw [hsort] at hperm
      exact absurd hperm.symm.eq_nil h
    | cons e es =>
      refine ⟨⟨sid, e.event_timestamp,
          some (((e :: es).getLast (by simp)).event_timestamp), e :: es⟩,
        by simp [analyzeSessionEvents, hsort], ?_, ?_, ?_, ?_⟩
      · have hmem : e ∈ events := (sortEvents_perm events).mem_iff.1 (by simp [hsort])
        exact List.mem_map.2 ⟨e, hmem, rfl⟩
      · intro x hx
        have hx' : x ∈ e :: es := by
          rw [← hsort]
          exact (sortEvents_perm events).symm.mem_iff.1 hx
        have hs := sortEvents_sorted events
        rw [hsort] at hs
        rcases List.mem_cons.1 hx' with rfl | hx2
        · exact le_refl _
        · exact List.rel_of_sorted_cons hs _ hx2
      · refine ⟨((e :: es).getLast (by simp)).event_timestamp, rfl, ?_, ?_, ?_⟩
        · have hmem : (e :: es).getLast (by simp) ∈ events := by
            refine (sortEvents_perm events).mem_iff.1 ?_
            rw [hsort]
            exact List.getLast_mem _
          exact List.mem_map.2 ⟨_, hmem, rfl⟩
        · intro x hx
          have hx' : x ∈ e :: es := by
            rw [← hsort]
            exact (sortEvents_perm events).symm.mem_iff.1 hx
          have hs := sortEvents_sorted events
          rw [hsort] at hs
          exact sorted_le_getLast (e :: es) hs (by simp) x hx'
        · have hs := sortEvents_sorted events
          rw [hsort] at hs
          exact sorted_le_getLast (e :: es) hs (by simp) e (by simp)
      · have hs := sortEvents_sorted events
        rw [hsort] at hs
        exact hs
  · intro s e
    refine ⟨rfl, ?_⟩
    cases hse : s.session_end with
    | none => simp [addEvent, hse]
    | some t =>
      simp only [addEvent, hse]
      split_ifs <;> rfl
  · intro l
    induction l with
    | nil => intro s t0 hse; simpa using hse
    | cons e es ih =>
      intro s t0 hse
      have hstep : (addEvent s e).session_end = some (max t0 e.event_timestamp) := by
        simp only [addEvent, hse]
        rcases lt_or_le t0 e.event_timestamp with hc | hc
        · rw [if_pos hc, max_eq_right (le_of_lt hc)]
        · rw [if_neg (not_lt.2 hc), max_eq_left hc]
      simpa using ih (addEvent s e) (max t0 e.event_timestamp) hstep

/-- Witness for claim C8 on the three-event fixture session. -/
theorem analyze_session_invariants_witness :
    ∃ s, analyzeSessionEvents "w1" sampleSession.events = some s ∧
      s.session_start ∈ sampleSession.events.map (fun e => e.event_timestamp) ∧
      (∀ e ∈ sampleSession.events, s.session_start ≤ e.event_timestamp) ∧
      (∃ tEnd, s.session_end = some tEnd ∧
        tEnd ∈ sampleSession.events.map (fun e => e.event_timestamp) ∧
        (∀ e ∈ sampleSession.events, e.event_timestamp ≤ tEnd) ∧
        s.session_start ≤ tEnd) ∧
      List.Sorted (fun a b : SessionEvent => a.event_timestamp ≤ b.event_timestamp)
        s.events :=
  (analyze_session_invariants "w1" sampleSession.events (by decide)).1

end GraphMCP
